import Mathlib

/-!
# Verification of the MSAL authorization-code-flow client core

This file gives a shallow embedding of the token-acquisition and
credential-cache subsystem of the MSAL SPA client (`SPAClient`) and of the
node `Storage` cache backend, and proves the specified properties about it.

Pure TypeScript functions become Lean functions; methods that mutate the
client instance become explicit state-passing functions on `MSAL.SPAState`;
thrown errors become `Except` values; network-bound collaborator calls
(authority endpoint discovery, token-endpoint POSTs, credential-cache
queries) are recorded in an event trace of type `List MSAL.Event`.
Collaborators that are external to the verified files (crypto, transport,
authority factory) are supplied as fields of `MSAL.SPAConfig`.
-/

/-- Decidable equality for `Except` results, so concrete runs of the
embedded operations can be checked by evaluation. -/
instance {ε α : Type} [DecidableEq ε] [DecidableEq α] :
    DecidableEq (Except ε α) := fun x y =>
  match x, y with
  | .error c, .error d =>
    if h : c = d then .isTrue (by rw [h])
    else .isFalse (fun hc => h (Except.error.inj hc))
  | .ok c, .ok d =>
    if h : c = d then .isTrue (by rw [h])
    else .isFalse (fun hc => h (Except.ok.inj hc))
  | .error _, .ok _ => .isFalse (fun hc => Except.noConfusion hc)
  | .ok _, .error _ => .isFalse (fun hc => Except.noConfusion hc)

namespace MSAL

/-- Claims carried by a decoded ID token (collaborator data, decoded by the
crypto collaborator). -/
structure IdTokenClaims where
  tid : String
  sub : String
  preferredUsername : String
  deriving DecidableEq, Repr

/-- Decoded client-info blob (uid/utid pair identifying the home account). -/
structure ClientInfo where
  uid : String
  utid : String
  deriving DecidableEq, Repr

/-- A signed-in account as exposed by the client. -/
structure Account where
  homeAccountIdentifier : String
  userName : String
  deriving DecidableEq, Repr

/-- Modelled from the spec: `Account.createAccount` is not among the verified
files; per spec §4.5 the account identity is derived from the decoded ID
token plus the decoded client-info blob (home-account identifier from the
uid/utid pair, username from the ID-token claims). -/
def createAccount (idt : IdTokenClaims) (ci : ClientInfo) : Account :=
  { homeAccountIdentifier := ci.uid ++ "." ++ ci.utid
    userName := idt.preferredUsername }

/-- An ordered, de-duplicated set of scope strings tied to a client id. -/
structure ScopeSet where
  clientId : String
  scopes : List String
  deriving DecidableEq, Repr

/-- Lower-case a string (character-wise, structurally recursive). -/
def toLowerStr (s : String) : String :=
  ⟨s.data.map Char.toLower⟩

/-- Split a string at single spaces (structurally recursive), matching the
behaviour of splitting on the separator `" "`. -/
def splitBySpaceAux : List Char → List Char → List String
  | [], acc => [⟨acc.reverse⟩]
  | c :: rest, acc =>
    if c = ' ' then (⟨acc.reverse⟩ : String) :: splitBySpaceAux rest []
    else splitBySpaceAux rest (c :: acc)

/-- Split a string at single spaces. -/
def splitBySpace (s : String) : List String :=
  splitBySpaceAux s.data []

/-- Scope normalization: lower-case each scope and drop duplicates. -/
def normalizeScopes (input : List String) : List String :=
  (input.map toLowerStr).dedup

/-- Modelled from the spec: the `ScopeSet` constructor is not among the
verified files; per spec §3 and §4.1 step 2 a ScopeSet is a de-duplicated,
lower-cased scope list, and when the set represents an identity (login)
request — `scopesRequired` is passed false by login-call sites — the client
id is implicitly added as a member. -/
def ScopeSet.create (input : List String) (clientId : String)
    (scopesRequired : Bool) : ScopeSet :=
  if scopesRequired then ⟨clientId, normalizeScopes input⟩
  else ⟨clientId, normalizeScopes (clientId :: input)⟩

/-- Modelled from the spec: `ScopeSet.fromString` parses the canonical
space-separated serialization back into a set (spec §3 round-trip). -/
def ScopeSet.fromString (str : String) (clientId : String)
    (scopesRequired : Bool) : ScopeSet :=
  ScopeSet.create (splitBySpace str) clientId scopesRequired

/-- Modelled from the spec: subset test — every scope of `other` is a member
of `s` (spec §3 `containsScopeSet`). -/
def ScopeSet.containsScopeSet (s other : ScopeSet) : Bool :=
  other.scopes.all fun sc => s.scopes.contains sc

/-- Modelled from the spec: union of a set with further scopes; scopes
already present are kept, new ones are normalized and appended
(spec §3 `appendScopes`). -/
def ScopeSet.appendScopes (s : ScopeSet) (extra : List String) : ScopeSet :=
  ⟨s.clientId, s.scopes ++ (normalizeScopes extra).filter fun sc =>
    !(s.scopes.contains sc)⟩

/-- Modelled from the spec: a ScopeSet represents an identity (login-scope)
request when the client id is among its members (spec §3: the client id is
a member exactly of login/identity sets). -/
def ScopeSet.isLoginScopeSet (s : ScopeSet) : Bool :=
  s.scopes.contains (toLowerStr s.clientId)

/-- Canonical space-separated serialization of a ScopeSet. -/
def ScopeSet.printScopes (s : ScopeSet) : String :=
  String.intercalate " " s.scopes

/-- The scope list view of a ScopeSet. -/
def ScopeSet.asArray (s : ScopeSet) : List String :=
  s.scopes

/-- The composite key of an access-token credential cache entry. -/
structure AccessTokenKey where
  clientId : String
  authority : String
  scopes : String
  resource : String
  homeAccountIdentifier : String
  deriving DecidableEq, Repr

/-- The value of an access-token credential cache entry.  A missing or
unparsable `expiresOnSec` (TypeScript `Number(...)` yielding `NaN`, which is
falsy exactly like `0`) is modelled as `0`. -/
structure AccessTokenValue where
  accessToken : String
  refreshToken : String
  idToken : String
  tokenType : String
  expiresOnSec : Nat
  deriving DecidableEq, Repr

/-- An access-token credential cache entry. -/
structure AccessTokenCacheItem where
  key : AccessTokenKey
  value : AccessTokenValue
  deriving DecidableEq, Repr

/-- The errors surfaced by the client (ClientAuthError /
ClientConfigurationError / ServerError variants used by the verified code). -/
inductive AuthError where
  | emptyTokenRequest
  | tokenRequestCannotBeMade
  | tokenRequestCacheError
  | endpointDiscoveryIncomplete
  | userLoginRequired
  | noTokensFound (scopes : String)
  | multipleMatchingTokens (scopes : String)
  | serverError (code : String) (description : String)
  | redirectUriEmpty
  | invalidPrompt
  | idTokenParsing
  | clientInfoDecoding
  deriving DecidableEq, Repr

/-- Observable collaborator calls: authority endpoint discovery
(`resolveEndpointsAsync`), a POST to the token endpoint through the
transport collaborator, and a credential-cache query
(`getAllAccessTokens`). -/
inductive Event where
  | discovery
  | tokenEndpointCall
  | tokenCacheQuery
  deriving DecidableEq, Repr

/-- An authority collaborator instance.  `resolveSucceeds` models the
outcome of the external `resolveEndpointsAsync` call; the endpoint fields
are the values exposed once discovery has completed. -/
structure Authority where
  canonicalAuthority : String
  tokenEndpoint : String
  endSessionEndpoint : String
  discoveryComplete : Bool
  resolveSucceeds : Bool
  deriving DecidableEq, Repr

/-- The code response handed to `acquireToken` after the interactive step. -/
structure CodeResponse where
  code : String
  userRequestState : String
  deriving DecidableEq, Repr

/-- The token-exchange parameters persisted as Temporary Request State when
an authorization URL is built and consumed by `acquireToken`.  An absent
authority is the empty string. -/
structure TokenExchangeParameters where
  scopes : List String
  authority : String
  resource : String
  codeVerifier : String
  deriving DecidableEq, Repr

/-- The request object of `getValidToken`.  An absent authority or resource
is the empty string. -/
structure TokenRenewParameters where
  scopes : List String
  authority : String
  resource : String
  account : Option Account
  forceRefresh : Bool
  deriving DecidableEq, Repr

/-- The request object of `createLoginUrl` / `createAcquireTokenUrl`.
Absent string fields are the empty string. -/
structure AuthenticationParameters where
  scopes : List String
  extraScopesToConsent : List String
  authority : String
  userRequestState : String
  correlationId : String
  prompt : String
  account : Option Account
  loginHint : String
  extraQueryParameters : List (String × String)
  deriving DecidableEq, Repr

/-- A token-endpoint response body.  An absent `error` field is the empty
string. -/
structure ServerTokenResponse where
  error : String
  errorDescription : String
  accessToken : String
  refreshToken : String
  idToken : String
  clientInfo : String
  expiresIn : Nat
  tokenType : String
  scope : String
  deriving DecidableEq, Repr

/-- Modelled from the spec: `ServerTokenRequestParameters` is not among the
verified files; per spec §6 a token-endpoint request body carries grant
type, code or refresh token, PKCE verifier, redirect URI, client id and
scopes. -/
structure TokenEndpointRequest where
  clientId : String
  grantType : String
  code : String
  codeVerifier : String
  refreshToken : String
  redirectUri : String
  scopes : List String
  deriving DecidableEq, Repr

/-- The normalized token result returned to callers.  `expiresOn` is an
absolute timestamp in epoch seconds (the `Date` at `expirationSec * 1000`). -/
structure TokenResponse where
  uniqueId : String
  tenantId : String
  scopes : List String
  tokenType : String
  idToken : String
  idTokenClaims : Option IdTokenClaims
  accessToken : String
  refreshToken : String
  expiresOn : Nat
  account : Option Account
  userRequestState : String
  deriving DecidableEq, Repr

/-- The configured redirect URI: absent, a string value, or a function
evaluated at access time. -/
inductive RedirectUriConfig where
  | absent
  | value (s : String)
  | func (f : Unit → String)

/-- Client configuration plus the external collaborators (crypto, authority
factory, transport, decoders), supplied as function fields, and the current
time in epoch seconds. -/
structure SPAConfig where
  clientId : String
  redirectUri : RedirectUriConfig
  tokenRenewalOffsetSeconds : Nat
  nowSeconds : Nat
  newGuid : String
  nonceGuid : String
  pkceChallenge : String
  defaultAuthority : Authority
  makeAuthority : String → Authority
  transport : String → TokenEndpointRequest → ServerTokenResponse
  decodeIdToken : String → Option IdTokenClaims
  buildClientInfo : String → Option ClientInfo

/-- The mutable state of a client instance: the instance-cached account,
the access-token credential cache, the Temporary Request State (request
parameters and state-keyed authority entries) and the persisted ID-token
and client-info blobs (empty string = absent). -/
structure SPAState where
  account : Option Account
  accessTokens : List AccessTokenCacheItem
  tempRequestParams : Option TokenExchangeParameters
  tempAuthorities : List (String × String)
  idTokenRaw : String
  clientInfoRaw : String
  deriving DecidableEq, Repr

/-- Modelled from the spec: `CacheManager.resetTempCacheItems` is not among
the verified files; per spec §4.2/§7 it clears the Temporary Request State
(request parameters and state-keyed entries). -/
def resetTempCacheItems (s : SPAState) : SPAState :=
  { s with tempRequestParams := none, tempAuthorities := [] }

/-- Modelled from the spec: `CacheManager.generateAuthorityKey` is not among
the verified files; it derives the temporary-cache key holding the request
authority from the request's `state` value. -/
def generateAuthorityKey (state : String) : String :=
  "msal.authority|" ++ state

/-- Modelled from the spec: `ProtocolUtils.setRequestState` is not among the
verified files; per spec §4.1 step 3 the emitted `state` embeds the
caller-supplied application state together with a fresh random token. -/
def setRequestState (userRequestState : String) (guid : String) : String :=
  if userRequestState = "" then guid else guid ++ "|" ++ userRequestState

/-- Modelled from the spec: the persistence of the constructed request in
Temporary Request State (spec §4.1 step 4) happens in caller code that is
not among the verified files; the request parameters are written where
`getCachedRequest` reads them, with the request authority additionally
stored under the state-derived authority key. -/
def persistRequestState (s : SPAState) (state : String)
    (request : TokenExchangeParameters) : SPAState :=
  { s with
    tempRequestParams := some request
    tempAuthorities :=
      (generateAuthorityKey state, request.authority) :: s.tempAuthorities }

/-- `SPAClient.getRedirectUri`: evaluates a function-valued configuration
unconditionally, returns a string value only when non-empty (TypeScript
truthiness), and otherwise fails with the redirect-URI-empty configuration
error. -/
def getRedirectUri (cfg : SPAConfig) : Except AuthError String :=
  match cfg.redirectUri with
  | .func f => .ok (f ())
  | .value s => if s ≠ "" then .ok s else .error .redirectUriEmpty
  | .absent => .error .redirectUriEmpty

/-- `SPAClient.getAccount`: return the instance-cached account if present;
otherwise, when both the persisted ID token and client-info blob are
non-empty, decode them into an `Account` and cache it on the instance
(decoding failures of the collaborator decoders are thrown); else return
null. -/
def getAccount (cfg : SPAConfig) (s : SPAState) :
    SPAState × Except AuthError (Option Account) :=
  match s.account with
  | some a => (s, .ok (some a))
  | none =>
    if s.idTokenRaw ≠ "" ∧ s.clientInfoRaw ≠ "" then
      match cfg.decodeIdToken s.idTokenRaw, cfg.buildClientInfo s.clientInfoRaw with
      | some idt, some ci =>
        let acct := createAccount idt ci
        ({ s with account := some acct }, .ok (some acct))
      | none, _ => (s, .error .idTokenParsing)
      | some _, none => (s, .error .clientInfoDecoding)
    else (s, .ok none)

/-- `SPAClient.getCachedRequest`: read the Temporary Request State
parameters (failure to retrieve or deserialize them is a token-request
cache error), consume them, and when the parsed request has no authority,
fall back to the authority cached under the state-derived key. -/
def getCachedRequest (s : SPAState) (state : String) :
    SPAState × Except AuthError TokenExchangeParameters :=
  match s.tempRequestParams with
  | none => (s, .error .tokenRequestCacheError)
  | some parsedRequest =>
    let s1 := { s with tempRequestParams := none }
    if parsedRequest.authority = "" then
      let cachedAuthority :=
        (s1.tempAuthorities.lookup (generateAuthorityKey state)).getD ""
      (s1, .ok { parsedRequest with authority := cachedAuthority })
    else (s1, .ok parsedRequest)

/-- Modelled from the spec: `CacheManager.getAllAccessTokens` is not among
the verified files; per spec §4.4 step 3 it yields the cached access-token
entries whose composite key matches the given client id, authority,
resource and home-account identifier. -/
def getAllAccessTokens (clientId authorityUri resource
    homeAccountIdentifier : String) (items : List AccessTokenCacheItem) :
    List AccessTokenCacheItem :=
  items.filter fun it =>
    it.key.clientId == clientId && it.key.authority == authorityUri &&
      it.key.resource == resource &&
      it.key.homeAccountIdentifier == homeAccountIdentifier

/-- The scope filter applied by `getCachedTokens`: keep a cache entry when
its cached scopes, parsed from their serialized form, contain the requested
ScopeSet. -/
def scopeFilter (clientId : String) (requestScopes : ScopeSet)
    (cacheItem : AccessTokenCacheItem) : Bool :=
  (ScopeSet.fromString cacheItem.key.scopes clientId true).containsScopeSet
    requestScopes

/-- `SPAClient.getCachedTokens`: query the credential cache for entries
matching the composite key, fail with no-tokens-found when none match,
filter to entries whose cached scopes contain the requested ScopeSet, fail
with multiple-matching-tokens when more than one remains, return the single
remaining entry, and fail with no-tokens-found when none remains. -/
def getCachedTokens (clientId : String) (items : List AccessTokenCacheItem)
    (requestScopes : ScopeSet) (authorityUri resource
    homeAccountIdentifier : String) : Except AuthError AccessTokenCacheItem :=
  let tokenCacheItems :=
    getAllAccessTokens clientId authorityUri resource homeAccountIdentifier items
  if tokenCacheItems.length = 0 then
    .error (.noTokensFound requestScopes.printScopes)
  else
    let filteredCacheItems := tokenCacheItems.filter (scopeFilter clientId requestScopes)
    if 1 < filteredCacheItems.length then
      .error (.multipleMatchingTokens requestScopes.printScopes)
    else
      match filteredCacheItems with
      | [item] => .ok item
      | _ => .error (.noTokensFound requestScopes.printScopes)

/-- Modelled from the spec:
`ResponseHandler.validateServerAuthorizationTokenResponse` is not among the
verified files; per spec §4.3 it fails with a structured server error
carrying the server's code and description whenever the response body
contains an error field. -/
def validateServerAuthorizationTokenResponse (resp : ServerTokenResponse) :
    Except AuthError Unit :=
  if resp.error ≠ "" then .error (.serverError resp.error resp.errorDescription)
  else .ok ()

/-- Modelled from the spec: `ResponseHandler.createTokenResponse` is not
among the verified files; per spec §4.3 it decodes the ID token and
client-info blob of a validated response, computes the absolute expiry from
`expires_in` plus the current time, writes the resulting credential entry
into the credential cache under the composite key, and returns the
normalized token result. -/
def createTokenResponse (cfg : SPAConfig) (s : SPAState)
    (resp : ServerTokenResponse) (reqAuthority reqResource
    userRequestState : String) : SPAState × TokenResponse :=
  let claims := cfg.decodeIdToken resp.idToken
  let clientInfo := cfg.buildClientInfo resp.clientInfo
  let account : Option Account :=
    match claims, clientInfo with
    | some idt, some ci => some (createAccount idt ci)
    | _, _ => none
  let expiresOn := cfg.nowSeconds + resp.expiresIn
  let hid := (account.map fun a => a.homeAccountIdentifier).getD ""
  let entry : AccessTokenCacheItem :=
    { key :=
        { clientId := cfg.clientId, authority := reqAuthority
          scopes := resp.scope, resource := reqResource
          homeAccountIdentifier := hid }
      value :=
        { accessToken := resp.accessToken, refreshToken := resp.refreshToken
          idToken := resp.idToken, tokenType := resp.tokenType
          expiresOnSec := expiresOn } }
  let tr : TokenResponse :=
    { uniqueId := (claims.map fun c => c.sub).getD ""
      tenantId := (claims.map fun c => c.tid).getD ""
      scopes := (ScopeSet.fromString resp.scope cfg.clientId true).asArray
      tokenType := resp.tokenType
      idToken := resp.idToken
      idTokenClaims := claims
      accessToken := resp.accessToken
      refreshToken := resp.refreshToken
      expiresOn := expiresOn
      account := account
      userRequestState := userRequestState }
  ({ s with accessTokens := entry :: s.accessTokens }, tr)

/-- `SPAClient.getTokenResponse`: POST the request to the token endpoint
through the transport collaborator, validate the response (a server error
body short-circuits), then build the normalized response, write the
credential cache and set the current account to the response account. -/
def getTokenResponse (cfg : SPAConfig) (s : SPAState) (tokenEndpoint : String)
    (tokenReqParams : TokenEndpointRequest) (reqAuthority reqResource
    userRequestState : String) :
    List Event × SPAState × Except AuthError TokenResponse :=
  let acquiredTokenResponse := cfg.transport tokenEndpoint tokenReqParams
  match validateServerAuthorizationTokenResponse acquiredTokenResponse with
  | .error e => ([Event.tokenEndpointCall], s, .error e)
  | .ok _ =>
    let res := createTokenResponse cfg s acquiredTokenResponse reqAuthority
      reqResource userRequestState
    ([Event.tokenEndpointCall], { res.1 with account := res.2.account },
      .ok res.2)

/-- `SPAClient.renewToken`: build refresh-token request parameters (which
evaluates `getRedirectUri`, so a missing redirect URI is thrown here) and
send them to the given token endpoint. -/
def renewToken (cfg : SPAConfig) (s : SPAState)
    (refreshTokenRequest : TokenRenewParameters) (tokenEndpoint : String)
    (refreshToken : String) :
    List Event × SPAState × Except AuthError TokenResponse :=
  match getRedirectUri cfg with
  | .error e => ([], s, .error e)
  | .ok ruri =>
    let tokenReqParams : TokenEndpointRequest :=
      { clientId := cfg.clientId
        grantType := "refresh_token"
        code := ""
        codeVerifier := ""
        refreshToken := refreshToken
        redirectUri := ruri
        scopes := refreshTokenRequest.scopes }
    getTokenResponse cfg s tokenEndpoint tokenReqParams
      refreshTokenRequest.authority refreshTokenRequest.resource ""

/-- The authority used by a request: the request authority when present,
else the configured default (`AuthorityFactory.createInstance` is the
`makeAuthority` collaborator). -/
def resolveAuthority (cfg : SPAConfig) (authorityUri : String) : Authority :=
  if authorityUri ≠ "" then cfg.makeAuthority authorityUri
  else cfg.defaultAuthority

/-- The cached-token branch of `getValidToken`: the default token response
built directly from the single matching cache entry. -/
def cachedTokenResponse (cfg : SPAConfig) (item : AccessTokenCacheItem)
    (account : Option Account) : TokenResponse :=
  { uniqueId := ""
    tenantId := ""
    scopes := (ScopeSet.fromString item.key.scopes cfg.clientId true).asArray
    tokenType := item.value.tokenType
    idToken := ""
    idTokenClaims := none
    accessToken := item.value.accessToken
    refreshToken := item.value.refreshToken
    expiresOn := item.value.expiresOnSec
    account := account
    userRequestState := "" }

/-- Modelled from the spec: `ResponseHandler.setResponseIdToken` is not
among the verified files; it populates the response's ID-token fields
(raw token, claims, unique and tenant ids) from a decoded ID token. -/
def setResponseIdToken (tr : TokenResponse) (raw : String)
    (claims : IdTokenClaims) : TokenResponse :=
  { tr with idToken := raw, idTokenClaims := some claims
            uniqueId := claims.sub, tenantId := claims.tid }

/-- The value returned by the cached-token branch of `getValidToken`: the
default response when the cached entry has no ID token, else the response
with the decoded cached ID token populated (a malformed cached ID token is
thrown by the decoder). -/
def cachedBranchResult (cfg : SPAConfig) (item : AccessTokenCacheItem)
    (account : Option Account) : Except AuthError TokenResponse :=
  if item.value.idToken = "" then .ok (cachedTokenResponse cfg item account)
  else
    match cfg.decodeIdToken item.value.idToken with
    | some claims =>
      .ok (setResponseIdToken (cachedTokenResponse cfg item account)
        item.value.idToken claims)
    | none => .error .idTokenParsing

/-- The body of `SPAClient.getValidToken` (the `try` block): resolve the
account and requested scopes, enforce the login requirement for identity
requests, resolve and if needed discover the authority, query the
credential cache, and either answer from the single matching entry (when
refresh is not forced and the entry's expiry exceeds now plus the renewal
offset) or renew through the cached refresh token. -/
def getValidTokenBody (cfg : SPAConfig) (s : SPAState)
    (request : Option TokenRenewParameters) :
    List Event × SPAState × Except AuthError TokenResponse :=
  match request with
  | none => ([], s, .error .emptyTokenRequest)
  | some req =>
    let acctStep :=
      match req.account with
      | some a => (s, Except.ok (some a))
      | none => getAccount cfg s
    match acctStep with
    | (s1, .error e) => ([], s1, .error e)
    | (s1, .ok account) =>
      let requestScopes := ScopeSet.create req.scopes cfg.clientId true
      if requestScopes.isLoginScopeSet ∧ account.isNone then
        ([], s1, .error .userLoginRequired)
      else
        let acquireTokenAuthority := resolveAuthority cfg req.authority
        let evDisc : List Event :=
          if acquireTokenAuthority.discoveryComplete then [] else [.discovery]
        if acquireTokenAuthority.discoveryComplete = false ∧
            acquireTokenAuthority.resolveSucceeds = false then
          (evDisc, s1, .error .endpointDiscoveryIncomplete)
        else
          let hid := (account.map fun a => a.homeAccountIdentifier).getD ""
          match getCachedTokens cfg.clientId s1.accessTokens requestScopes
              acquireTokenAuthority.canonicalAuthority req.resource hid with
          | .error e => (evDisc ++ [.tokenCacheQuery], s1, .error e)
          | .ok cachedTokenItem =>
            let expirationSec := cachedTokenItem.value.expiresOnSec
            let offsetCurrentTimeSec :=
              cfg.nowSeconds + cfg.tokenRenewalOffsetSeconds
            if req.forceRefresh = false ∧ expirationSec ≠ 0 ∧
                offsetCurrentTimeSec < expirationSec then
              (evDisc ++ [.tokenCacheQuery], s1,
                cachedBranchResult cfg cachedTokenItem account)
            else
              let renewReq := { req with authority := cachedTokenItem.key.authority }
              let renewed := renewToken cfg s1 renewReq
                acquireTokenAuthority.tokenEndpoint
                cachedTokenItem.value.refreshToken
              (evDisc ++ [.tokenCacheQuery] ++ renewed.1, renewed.2.1,
                renewed.2.2)

/-- `SPAClient.getValidToken`: the body wrapped so that on any thrown
error the Temporary Request State is reset and the current account cleared
before the same error is re-thrown. -/
def getValidToken (cfg : SPAConfig) (s : SPAState)
    (request : Option TokenRenewParameters) :
    List Event × SPAState × Except AuthError TokenResponse :=
  match getValidTokenBody cfg s request with
  | (ev, s1, .ok v) => (ev, s1, .ok v)
  | (ev, s1, .error e) =>
    (ev, { resetTempCacheItems s1 with account := none }, .error e)

/-- The body of `SPAClient.acquireToken` (the `try` block): reject an
absent or empty code, retrieve and consume the cached request, resolve and
if needed discover the authority, build the code-exchange parameters
(evaluating `getRedirectUri`) and perform the token-endpoint exchange. -/
def acquireTokenBody (cfg : SPAConfig) (s : SPAState)
    (codeResponse : Option CodeResponse) :
    List Event × SPAState × Except AuthError TokenResponse :=
  match codeResponse with
  | none => ([], s, .error .tokenRequestCannotBeMade)
  | some cr =>
    if cr.code = "" then ([], s, .error .tokenRequestCannotBeMade)
    else
      match getCachedRequest s cr.userRequestState with
      | (s1, .error e) => ([], s1, .error e)
      | (s1, .ok tokenRequest) =>
        let acquireTokenAuthority := resolveAuthority cfg tokenRequest.authority
        let evDisc : List Event :=
          if acquireTokenAuthority.discoveryComplete then [] else [.discovery]
        if acquireTokenAuthority.discoveryComplete = false ∧
            acquireTokenAuthority.resolveSucceeds = false then
          (evDisc, s1, .error .endpointDiscoveryIncomplete)
        else
          match getRedirectUri cfg with
          | .error e => (evDisc, s1, .error e)
          | .ok ruri =>
            let tokenReqParams : TokenEndpointRequest :=
              { clientId := cfg.clientId
                grantType := "authorization_code"
                code := cr.code
                codeVerifier := tokenRequest.codeVerifier
                refreshToken := ""
                redirectUri := ruri
                scopes := tokenRequest.scopes }
            let res := getTokenResponse cfg s1
              acquireTokenAuthority.tokenEndpoint tokenReqParams
              tokenRequest.authority tokenRequest.resource cr.userRequestState
            (evDisc ++ res.1, res.2.1, res.2.2)

/-- `SPAClient.acquireToken`: the body wrapped so that on any thrown error
the Temporary Request State is reset and the current account cleared before
the same error is re-thrown. -/
def acquireToken (cfg : SPAConfig) (s : SPAState)
    (codeResponse : Option CodeResponse) :
    List Event × SPAState × Except AuthError TokenResponse :=
  match acquireTokenBody cfg s codeResponse with
  | (ev, s1, .ok v) => (ev, s1, .ok v)
  | (ev, s1, .error e) =>
    (ev, { resetTempCacheItems s1 with account := none }, .error e)

/-- The authority used by `createUrl`: the request authority when a request
with a non-empty authority is given, else the configured default. -/
def createUrlAuthority (cfg : SPAConfig)
    (request : Option AuthenticationParameters) : Authority :=
  match request with
  | some r => if r.authority ≠ "" then cfg.makeAuthority r.authority
              else cfg.defaultAuthority
  | none => cfg.defaultAuthority

/-- The ScopeSet built by `createUrl`: the requested scopes with the client
id implicitly added on a login call, plus the extra consent scopes appended
on a login call. -/
def createUrlScopes (cfg : SPAConfig)
    (request : Option AuthenticationParameters) (isLoginCall : Bool) :
    ScopeSet :=
  let scopeset := ScopeSet.create
    (match request with | some r => r.scopes | none => [])
    cfg.clientId (!isLoginCall)
  if isLoginCall then
    scopeset.appendScopes
      (match request with | some r => r.extraScopesToConsent | none => [])
  else scopeset

/-- The anti-forgery `state` emitted by `createUrl`: the caller-supplied
application state combined with a fresh random token. -/
def requestStateOf (cfg : SPAConfig)
    (request : Option AuthenticationParameters) : String :=
  setRequestState
    (match request with | some r => r.userRequestState | none => "")
    cfg.newGuid

/-- The correlation id emitted by `createUrl`: caller-supplied when
non-empty, else freshly generated. -/
def correlationIdOf (cfg : SPAConfig)
    (request : Option AuthenticationParameters) : String :=
  match request with
  | some r => if r.correlationId ≠ "" then r.correlationId else cfg.newGuid
  | none => cfg.newGuid

/-- The login hint derived by `createUrl`: the associated account's
username when present and non-empty, else the explicit hint, else empty. -/
def loginHintOf (request : Option AuthenticationParameters) : String :=
  match request with
  | some r =>
    match r.account with
    | some a => if a.userName ≠ "" then a.userName else r.loginHint
    | none => r.loginHint
  | none => ""

/-- The recognized `prompt` values (spec §4.1: the enumerated prompt set). -/
def validPrompts : List String :=
  ["login", "select_account", "consent", "none"]

/-- The authorization-request query parameters assembled by `createUrl`, in
emission order, as name/value pairs (the serialized query string is their
`name=value` joining, modelled by the pair list itself). -/
def buildAuthParams (cfg : SPAConfig)
    (request : Option AuthenticationParameters) (isLoginCall : Bool)
    (redirectUri : String) : List (String × String) :=
  [("client_id", cfg.clientId),
   ("scope", (createUrlScopes cfg request isLoginCall).printScopes),
   ("redirect_uri", redirectUri),
   ("client-request-id", correlationIdOf cfg request),
   ("response_mode", "fragment"),
   ("response_type", "code"),
   ("code_challenge", cfg.pkceChallenge),
   ("code_challenge_method", "S256"),
   ("state", requestStateOf cfg request)]
  ++ (match request with
      | some r => if r.prompt ≠ "" then [("prompt", r.prompt)] else []
      | none => [])
  ++ (match request with
      | some _ => [("login_hint", loginHintOf request)]
      | none => [])
  ++ [("nonce", cfg.nonceGuid)]
  ++ (match request with | some r => r.extraQueryParameters | none => [])

/-- `SPAClient.createUrl`: resolve the authority and unconditionally await
endpoint discovery (a failure there is thrown as an
endpoint-discovery-incomplete error), then build the scope set, validate
the redirect URI (the redirect-URI-empty configuration error), validate a
supplied prompt against the enumerated values, and assemble the
authorization-request query parameters. -/
def createUrl (cfg : SPAConfig) (s : SPAState)
    (request : Option AuthenticationParameters) (isLoginCall : Bool) :
    List Event × SPAState × Except AuthError (List (String × String)) :=
  let acquireTokenAuthority := createUrlAuthority cfg request
  if acquireTokenAuthority.resolveSucceeds = false then
    ([Event.discovery], s, .error .endpointDiscoveryIncomplete)
  else
    match getRedirectUri cfg with
    | .error e => ([Event.discovery], s, .error e)
    | .ok ruri =>
      if ruri = "" then ([Event.discovery], s, .error .redirectUriEmpty)
      else if (match request with
               | some r => r.prompt ≠ "" && !(validPrompts.contains r.prompt)
               | none => false) then
        ([Event.discovery], s, .error .invalidPrompt)
      else
        ([Event.discovery], s,
          .ok (buildAuthParams cfg request isLoginCall ruri))

/-- True exactly when no redirect URI is configured: the configured value is
absent, an empty string, or a function returning the empty string. -/
def redirectUriResolvesEmpty (cfg : SPAConfig) : Bool :=
  match getRedirectUri cfg with
  | .error _ => true
  | .ok r => r = ""

end MSAL

namespace NodeStorage

/-- Cache-entry type enumeration used by the node storage layer. -/
inductive CacheSchemaType where
  | account
  | credential
  | appMetadata
  deriving DecidableEq, Repr

/-- Credential sub-types. -/
inductive CredentialType where
  | idToken
  | accessToken
  | refreshToken
  | other
  deriving DecidableEq, Repr

/-- True when `pat` occurs as a substring of `s`. -/
def strContains (s pat : String) : Bool :=
  (s.splitOn pat).length != 1

/-- Modelled from the spec: `CacheHelper.getCredentialType` is not among the
verified files; credential keys carry their sub-type as a key segment, so
the sub-type is recovered by substring inspection of the key. -/
def getCredentialType (key : String) : CredentialType :=
  if strContains key "accesstoken" then .accessToken
  else if strContains key "idtoken" then .idToken
  else if strContains key "refreshtoken" then .refreshToken
  else .other

/-- The in-memory cache of `Storage`, one association list per section, in
the field order of the class initializer.  Entity values are opaque blobs. -/
structure InMemoryCache where
  accounts : List (String × String)
  accessTokens : List (String × String)
  refreshTokens : List (String × String)
  appMetadata : List (String × String)
  idTokens : List (String × String)
  deriving DecidableEq, Repr

/-- Remove a key from an association list (TypeScript `delete obj[key]`). -/
def eraseKey (l : List (String × String)) (k : String) :
    List (String × String) :=
  l.filter fun p => p.1 != k

/-- `Storage.getItem`.  An omitted optional argument is its falsy/absent
default (`inMemory = false`, `type = none`); the TypeScript `{}` and `null`
returns both mean "no entry" and are modelled as `none`. -/
def getItem (c : InMemoryCache) (key : String) (type : Option CacheSchemaType)
    (inMemory : Bool) : Option String :=
  if !inMemory then none
  else
    match type with
    | some .account => c.accounts.lookup key
    | some .credential =>
      match getCredentialType key with
      | .idToken => c.idTokens.lookup key
      | .accessToken => c.accessTokens.lookup key
      | .refreshToken => c.refreshTokens.lookup key
      | .other => none
    | some .appMetadata => c.appMetadata.lookup key
    | none => none

/-- `Storage.removeItem`: guarded by the `inMemory` flag, dispatches on the
schema type and credential sub-type, returns the updated cache and whether
an entry was removed. -/
def removeItem (c : InMemoryCache) (key : String)
    (type : Option CacheSchemaType) (inMemory : Bool) :
    InMemoryCache × Bool :=
  if !inMemory then (c, false)
  else
    match type with
    | some .account =>
      if (c.accounts.lookup key).isSome then
        ({ c with accounts := eraseKey c.accounts key }, true)
      else (c, false)
    | some .credential =>
      match getCredentialType key with
      | .idToken =>
        if (c.idTokens.lookup key).isSome then
          ({ c with idTokens := eraseKey c.idTokens key }, true)
        else (c, false)
      | .accessToken =>
        if (c.accessTokens.lookup key).isSome then
          ({ c with accessTokens := eraseKey c.accessTokens key }, true)
        else (c, false)
      | .refreshToken =>
        if (c.refreshTokens.lookup key).isSome then
          ({ c with refreshTokens := eraseKey c.refreshTokens key }, true)
        else (c, false)
      | .other => (c, false)
    | some .appMetadata =>
      if (c.appMetadata.lookup key).isSome then
        ({ c with appMetadata := eraseKey c.appMetadata key }, true)
      else (c, false)
    | none => (c, false)

/-- `Storage.containsKey`: `return key ? true : false` — the key's
truthiness, never consulting the cache contents. -/
def containsKey (_c : InMemoryCache) (key : String) : Bool :=
  if key != "" then true else false

/-- The section names of the in-memory cache object, in initializer order:
what `Object.keys(cache)` yields. -/
def sectionNames : List String :=
  ["accounts", "accessTokens", "refreshTokens", "appMetadata", "idTokens"]

/-- `Object.keys` applied to a string yields its index strings
"0", "1", …, one per character. -/
def indexKeys (s : String) : List String :=
  (List.range s.length).map fun i => toString i

/-- `Storage.clear`: iterates `Object.keys` over the cache object's section
names, then over the index keys of each section-name string, invoking
`removeItem(internalKey)` with `type` and `inMemory` omitted. -/
def clear (c : InMemoryCache) (inMemory : Bool) : InMemoryCache :=
  if !inMemory then c
  else
    sectionNames.foldl
      (fun acc secName =>
        (indexKeys secName).foldl
          (fun acc2 internalKey => (removeItem acc2 internalKey none false).1)
          acc)
      c

end NodeStorage

namespace MSAL

/-- A discovered authority instance used as concrete input. -/
def authFix : Authority :=
  { canonicalAuthority := "https://login.example.com/common/"
    tokenEndpoint := "https://login.example.com/token"
    endSessionEndpoint := "https://login.example.com/logout"
    discoveryComplete := true
    resolveSucceeds := true }

/-- A successful token-endpoint response used as concrete input. -/
def respOkFix : ServerTokenResponse :=
  { error := "", errorDescription := "", accessToken := "at2"
    refreshToken := "rt2", idToken := "", clientInfo := ""
    expiresIn := 3600, tokenType := "Bearer", scope := "read" }

/-- An error token-endpoint response used as concrete input. -/
def respErrFix : ServerTokenResponse :=
  { respOkFix with error := "invalid_grant", errorDescription := "bad code" }

/-- A concrete client configuration whose transport answers successfully. -/
def cfgFix : SPAConfig :=
  { clientId := "cid"
    redirectUri := .value "https://app.example.com/redirect"
    tokenRenewalOffsetSeconds := 300
    nowSeconds := 1000
    newGuid := "guid-1"
    nonceGuid := "guid-2"
    pkceChallenge := "challenge"
    defaultAuthority := authFix
    makeAuthority := fun _ => authFix
    transport := fun _ _ => respOkFix
    decodeIdToken := fun _ => none
    buildClientInfo := fun _ => none }

/-- The configuration whose transport answers with a server error body. -/
def cfgErrFix : SPAConfig := { cfgFix with transport := fun _ _ => respErrFix }

/-- The configuration with no redirect URI configured. -/
def cfgNoRedirectFix : SPAConfig := { cfgFix with redirectUri := .absent }

/-- An empty client state used as concrete input. -/
def sFix : SPAState :=
  { account := none, accessTokens := [], tempRequestParams := none
    tempAuthorities := [], idTokenRaw := "", clientInfoRaw := "" }

/-- A concrete signed-in account. -/
def acctFix : Account :=
  { homeAccountIdentifier := "uid.utid", userName := "user@example.com" }

/-- A concrete cached access-token entry matching `reqRenewFix`. -/
def itemFix : AccessTokenCacheItem :=
  { key :=
      { clientId := "cid", authority := "https://login.example.com/common/"
        scopes := "read", resource := ""
        homeAccountIdentifier := "uid.utid" }
    value :=
      { accessToken := "at", refreshToken := "rt", idToken := ""
        tokenType := "Bearer", expiresOnSec := 10000 } }

/-- The client state whose credential cache holds exactly `itemFix`. -/
def sCacheFix : SPAState := { sFix with accessTokens := [itemFix] }

/-- A concrete renewal request for the scope "read" with an account. -/
def reqRenewFix : TokenRenewParameters :=
  { scopes := ["read"], authority := "", resource := ""
    account := some acctFix, forceRefresh := false }

/-- A concrete renewal request for the identity scope with no account. -/
def reqLoginFix : TokenRenewParameters :=
  { scopes := ["cid"], authority := "", resource := ""
    account := none, forceRefresh := false }

/-- A concrete authorization request for the scope "read". -/
def reqAuthFix : AuthenticationParameters :=
  { scopes := ["read"], extraScopesToConsent := [], authority := ""
    userRequestState := "", correlationId := "", prompt := ""
    account := none, loginHint := "", extraQueryParameters := [] }

/-- A concrete token-exchange request as persisted in temporary state. -/
def tqFix : TokenExchangeParameters :=
  { scopes := ["read"], authority := "", resource := "", codeVerifier := "ver" }

/-- A concrete code-exchange token-endpoint request body. -/
def tokenReqFix : TokenEndpointRequest :=
  { clientId := "cid", grantType := "authorization_code", code := "abc"
    codeVerifier := "ver", refreshToken := ""
    redirectUri := "https://app.example.com/redirect", scopes := ["read"] }

end MSAL

theorem nodeStorage_removeItem_not_inMemory (c : NodeStorage.InMemoryCache)
    (key : String) (type : Option NodeStorage.CacheSchemaType) :
    NodeStorage.removeItem c key type false = (c, false) := rfl

theorem nodeStorage_foldl_removeItem_fixed (keys : List String)
    (c : NodeStorage.InMemoryCache) :
    keys.foldl (fun acc2 internalKey =>
      (NodeStorage.removeItem acc2 internalKey none false).1) c = c := by
  induction keys generalizing c with
  | nil => rfl
  | cons k ks ih =>
    have h := ih c
    simp only [List.foldl_cons, NodeStorage.removeItem]
    exact h

theorem nodeStorage_clear_true_eq (c : NodeStorage.InMemoryCache) :
    NodeStorage.clear c true = c := by
  simp [NodeStorage.clear, nodeStorage_foldl_removeItem_fixed]

/-- Claim C9: `Storage.clear` with `inMemory = true` removes no stored
entry — every account, access-token, refresh-token, id-token and
app-metadata entry retrievable via `getItem (key, type, inMemory := true)`
before the call is retrievable with the same value after the call (clear
iterates `Object.keys` over the section-name strings, so `removeItem` is
invoked only with index keys and with `inMemory` unset, removing nothing). -/
theorem storage_clear_removes_nothing (c : NodeStorage.InMemoryCache)
    (key : String) (type : Option NodeStorage.CacheSchemaType) :
    NodeStorage.getItem (NodeStorage.clear c true) key type true =
      NodeStorage.getItem c key type true := by
  rw [nodeStorage_clear_true_eq]

/-- Claim C10: `Storage.containsKey` returns true iff the key is non-empty,
independently of the cache contents — it never consults what was stored. -/
theorem storage_containsKey_ignores_cache
    (c c2 : NodeStorage.InMemoryCache) (key : String) :
    (NodeStorage.containsKey c key = true ↔ key ≠ "") ∧
      NodeStorage.containsKey c key = NodeStorage.containsKey c2 key := by
  constructor
  · simp [NodeStorage.containsKey]
  · rfl

/-- Claim C2: after filtering the cached access-token entries matching the
composite key to those whose cached scopes are a superset of the requested
ScopeSet, `getCachedTokens` fails with no-tokens-found when zero entries
remain, fails with multiple-matching-tokens when more than one remains, and
returns an entry only when it is the unique remaining match — a tie is
never silently disambiguated. -/
theorem getCachedTokens_match_policy (clientId : String)
    (items : List MSAL.AccessTokenCacheItem) (requestScopes : MSAL.ScopeSet)
    (authorityUri resource homeAccountIdentifier : String) :
    MSAL.getCachedTokens clientId items requestScopes authorityUri resource
        homeAccountIdentifier =
      match (MSAL.getAllAccessTokens clientId authorityUri resource
          homeAccountIdentifier items).filter
          (MSAL.scopeFilter clientId requestScopes) with
      | [] => .error (.noTokensFound requestScopes.printScopes)
      | [item] => .ok item
      | _ :: _ :: _ =>
        .error (.multipleMatchingTokens requestScopes.printScopes) := by
  by_cases hp : (MSAL.getAllAccessTokens clientId authorityUri resource
      homeAccountIdentifier items).length = 0
  · rw [List.length_eq_zero] at hp
    simp [MSAL.getCachedTokens, hp]
  · rcases hf : (MSAL.getAllAccessTokens clientId authorityUri resource
        homeAccountIdentifier items).filter
        (MSAL.scopeFilter clientId requestScopes) with _ | ⟨a, _ | ⟨b, t⟩⟩
    · simp [MSAL.getCachedTokens, hp, hf]
    · simp [MSAL.getCachedTokens, hp, hf]
    · simp [MSAL.getCachedTokens, hp, hf]

/-- Claim C3: whenever the token-endpoint response body contains an error
field, the exchange fails with a server error carrying the server's code
and description, and the client state is returned unchanged: no credential
entry is written to the cache and the current account is not updated.  Both
the authorization-code exchange (`acquireToken`) and the refresh exchange
(`renewToken`) route through this `getTokenResponse` helper. -/
theorem tokenExchange_serverError_writes_nothing
    (cfg : MSAL.SPAConfig) (s : MSAL.SPAState) (tokenEndpoint : String)
    (tokenReqParams : MSAL.TokenEndpointRequest)
    (reqAuthority reqResource userRequestState : String)
    (herr : (cfg.transport tokenEndpoint tokenReqParams).error ≠ "") :
    MSAL.getTokenResponse cfg s tokenEndpoint tokenReqParams reqAuthority
        reqResource userRequestState =
      ([MSAL.Event.tokenEndpointCall], s,
        .error (.serverError (cfg.transport tokenEndpoint tokenReqParams).error
          (cfg.transport tokenEndpoint tokenReqParams).errorDescription)) := by
  simp [MSAL.getTokenResponse, MSAL.validateServerAuthorizationTokenResponse,
    herr]

theorem tokenExchange_serverError_writes_nothing_witness :
    (MSAL.cfgErrFix.transport "https://login.example.com/token"
        MSAL.tokenReqFix).error ≠ "" ∧
    MSAL.getTokenResponse MSAL.cfgErrFix MSAL.sFix
        "https://login.example.com/token" MSAL.tokenReqFix
        "https://login.example.com/common/" "" "" =
      ([MSAL.Event.tokenEndpointCall], MSAL.sFix,
        .error (.serverError "invalid_grant" "bad code")) := by
  refine ⟨by decide, ?_⟩
  rw [tokenExchange_serverError_writes_nothing MSAL.cfgErrFix MSAL.sFix
    "https://login.example.com/token" MSAL.tokenReqFix
    "https://login.example.com/common/" "" "" (by decide)]
  rfl

/-- Claim C4: for both `acquireToken` and `getValidToken`, the error value
surfaced to the caller is exactly the error raised by the body (never
wrapped or replaced), and whenever the body raises an error the final state
has the Temporary Request State reset and the current account cleared. -/
theorem acquisition_error_resets_and_rethrows
    (cfg : MSAL.SPAConfig) (s : MSAL.SPAState)
    (codeResponse : Option MSAL.CodeResponse)
    (request : Option MSAL.TokenRenewParameters) :
    ((MSAL.acquireToken cfg s codeResponse).2.2 =
      (MSAL.acquireTokenBody cfg s codeResponse).2.2) ∧
    ((MSAL.acquireToken cfg s codeResponse).2.1 =
      if (MSAL.acquireTokenBody cfg s codeResponse).2.2.isOk then
        (MSAL.acquireTokenBody cfg s codeResponse).2.1
      else
        { MSAL.resetTempCacheItems (MSAL.acquireTokenBody cfg s codeResponse).2.1
          with account := none }) ∧
    ((MSAL.getValidToken cfg s request).2.2 =
      (MSAL.getValidTokenBody cfg s request).2.2) ∧
    ((MSAL.getValidToken cfg s request).2.1 =
      if (MSAL.getValidTokenBody cfg s request).2.2.isOk then
        (MSAL.getValidTokenBody cfg s request).2.1
      else
        { MSAL.resetTempCacheItems (MSAL.getValidTokenBody cfg s request).2.1
          with account := none }) := by
  rcases h1 : MSAL.acquireTokenBody cfg s codeResponse with ⟨ev1, s1, r1⟩
  rcases h2 : MSAL.getValidTokenBody cfg s request with ⟨ev2, s2, r2⟩
  cases r1 <;> cases r2 <;>
    simp [MSAL.acquireToken, MSAL.getValidToken, h1, h2, Except.isOk,
      Except.toBool]

theorem getAccount_empty_state (cfg : MSAL.SPAConfig) (s : MSAL.SPAState)
    (hacct : s.account = none)
    (hempty : s.idTokenRaw = "" ∨ s.clientInfoRaw = "") :
    MSAL.getAccount cfg s = (s, .ok none) := by
  rcases hempty with h | h <;> simp [MSAL.getAccount, hacct, h]

/-- Claim C8: when no account is cached on the instance and the persisted
ID token or client-info blob is absent (empty), `getAccount` returns null
as a normal value — the state is unchanged and no error is thrown. -/
theorem getAccount_notLoggedIn_returns_null (cfg : MSAL.SPAConfig)
    (s : MSAL.SPAState) (hacct : s.account = none)
    (hempty : s.idTokenRaw = "" ∨ s.clientInfoRaw = "") :
    MSAL.getAccount cfg s = (s, .ok none) :=
  getAccount_empty_state cfg s hacct hempty

theorem getAccount_notLoggedIn_returns_null_witness :
    MSAL.sFix.account = none ∧
    (MSAL.sFix.idTokenRaw = "" ∨ MSAL.sFix.clientInfoRaw = "") ∧
    MSAL.getAccount MSAL.cfgFix MSAL.sFix = (MSAL.sFix, .ok none) :=
  ⟨rfl, Or.inl rfl,
    getAccount_notLoggedIn_returns_null MSAL.cfgFix MSAL.sFix rfl (Or.inl rfl)⟩

/-- Claim C7: when the requested scopes form an identity (login-scope)
ScopeSet and no account is known — none supplied in the request and none
derivable by `getAccount` — `getValidToken` fails with the
user-login-required error with an empty collaborator-event trace: no
credential-cache query, no endpoint discovery and no token-endpoint call
precede the failure. -/
theorem getValidToken_loginScopes_require_account
    (cfg : MSAL.SPAConfig) (s : MSAL.SPAState) (req : MSAL.TokenRenewParameters)
    (hlogin : (MSAL.ScopeSet.create req.scopes cfg.clientId true).isLoginScopeSet
      = true)
    (hreqacct : req.account = none)
    (hacct : s.account = none)
    (hempty : s.idTokenRaw = "" ∨ s.clientInfoRaw = "") :
    MSAL.getValidToken cfg s (some req) =
      ([], { MSAL.resetTempCacheItems s with account := none },
        .error .userLoginRequired) := by
  have hga := getAccount_empty_state cfg s hacct hempty
  simp [MSAL.getValidToken, MSAL.getValidTokenBody, hreqacct, hga, hlogin]

theorem getValidToken_loginScopes_require_account_witness :
    (MSAL.ScopeSet.create MSAL.reqLoginFix.scopes MSAL.cfgFix.clientId
      true).isLoginScopeSet = true ∧
    MSAL.reqLoginFix.account = none ∧
    MSAL.sFix.account = none ∧
    (MSAL.sFix.idTokenRaw = "" ∨ MSAL.sFix.clientInfoRaw = "") ∧
    MSAL.getValidToken MSAL.cfgFix MSAL.sFix (some MSAL.reqLoginFix) =
      ([], { MSAL.resetTempCacheItems MSAL.sFix with account := none },
        .error .userLoginRequired) := by
  refine ⟨by decide, rfl, rfl, Or.inl rfl, ?_⟩
  exact getValidToken_loginScopes_require_account MSAL.cfgFix MSAL.sFix
    MSAL.reqLoginFix (by decide) rfl rfl (Or.inl rfl)

theorem getRedirectUri_error_is_empty (cfg : MSAL.SPAConfig)
    (e : MSAL.AuthError) (h : MSAL.getRedirectUri cfg = .error e) :
    e = .redirectUriEmpty := by
  rcases hcfg : cfg.redirectUri with _ | s | f <;>
    simp only [MSAL.getRedirectUri, hcfg] at h
  · simp only [Except.error.injEq] at h
    exact h.symm
  · split at h
    · simp at h
    · simp only [Except.error.injEq] at h
      exact h.symm
  · simp at h

/-- Claim C6 (amended): when no redirect URI is configured (the configured
value is absent or empty and not a function returning a non-empty value)
and authority discovery succeeds, `createUrl` fails with the
redirect-URI-empty configuration error; however the failure occurs after
authority endpoint discovery has been attempted (the discovery call
precedes the redirect-URI check), and before any token-endpoint call. -/
theorem createUrl_noRedirectUri_configError
    (cfg : MSAL.SPAConfig) (s : MSAL.SPAState)
    (request : Option MSAL.AuthenticationParameters) (isLoginCall : Bool)
    (hres : (MSAL.createUrlAuthority cfg request).resolveSucceeds = true)
    (hred : MSAL.redirectUriResolvesEmpty cfg = true) :
    MSAL.createUrl cfg s request isLoginCall =
      ([MSAL.Event.discovery], s, .error .redirectUriEmpty) := by
  rcases hg : MSAL.getRedirectUri cfg with e | r
  · have he := getRedirectUri_error_is_empty cfg e hg
    subst he
    simp [MSAL.createUrl, hres, hg]
  · have hr : r = "" := by
      unfold MSAL.redirectUriResolvesEmpty at hred
      rw [hg] at hred
      simpa using hred
    subst hr
    simp [MSAL.createUrl, hres, hg]

/-- Claim C6 counterexample: with no configured redirect URI and a
resolvable default authority, `createUrl` does fail with the
redirect-URI-empty configuration error, but the endpoint-discovery network
call is attempted before that failure — the discovery event is in the
trace, refuting that the failure occurs before any network call (in
particular before authority endpoint discovery). -/
theorem createUrl_noRedirectUri_discovery_attempted :
    (MSAL.createUrl MSAL.cfgNoRedirectFix MSAL.sFix none true).2.2 =
      .error .redirectUriEmpty ∧
    MSAL.Event.discovery ∈ (MSAL.createUrl MSAL.cfgNoRedirectFix MSAL.sFix none true).1 := by
  constructor <;> decide

theorem createUrl_noRedirectUri_configError_witness :
    (MSAL.createUrlAuthority MSAL.cfgNoRedirectFix none).resolveSucceeds = true ∧
    MSAL.redirectUriResolvesEmpty MSAL.cfgNoRedirectFix = true ∧
    MSAL.createUrl MSAL.cfgNoRedirectFix MSAL.sFix none true =
      ([MSAL.Event.discovery], MSAL.sFix, .error .redirectUriEmpty) :=
  ⟨by decide, by decide,
    createUrl_noRedirectUri_configError MSAL.cfgNoRedirectFix MSAL.sFix none
      true (by decide) (by decide)⟩

/-- Claim C5: building a login authorization URL with requested scopes
`["read"]` succeeds with the assembled parameters, which contain the
`code_challenge_method=S256` pair, a `scope` parameter serializing a
ScopeSet that has the client id among its scope values, and a `state`
parameter; and a request persisted in Temporary Request State under that
state value is resolved back unchanged by `getCachedRequest` when the same
state value is echoed back. -/
theorem createLoginUrl_params_and_state_roundtrip
    (cfg : MSAL.SPAConfig) (s s2 : MSAL.SPAState)
    (req : MSAL.AuthenticationParameters) (tq : MSAL.TokenExchangeParameters)
    (ru : String)
    (_hscopes : req.scopes = ["read"])
    (hres : (MSAL.createUrlAuthority cfg (some req)).resolveSucceeds = true)
    (hred : MSAL.getRedirectUri cfg = .ok ru)
    (hru : ru ≠ "")
    (hprompt : req.prompt = "") :
    (MSAL.createUrl cfg s (some req) true).2.2 =
      .ok (MSAL.buildAuthParams cfg (some req) true ru) ∧
    ("code_challenge_method", "S256") ∈
      MSAL.buildAuthParams cfg (some req) true ru ∧
    ("scope", (MSAL.createUrlScopes cfg (some req) true).printScopes) ∈
      MSAL.buildAuthParams cfg (some req) true ru ∧
    MSAL.toLowerStr cfg.clientId ∈
      (MSAL.createUrlScopes cfg (some req) true).scopes ∧
    ("state", MSAL.requestStateOf cfg (some req)) ∈
      MSAL.buildAuthParams cfg (some req) true ru ∧
    (MSAL.getCachedRequest
        (MSAL.persistRequestState s2 (MSAL.requestStateOf cfg (some req)) tq)
        (MSAL.requestStateOf cfg (some req))).2 = .ok tq := by
  refine ⟨?_, ?_, ?_, ?_, ?_, ?_⟩
  · simp [MSAL.createUrl, hres, hred, hru, hprompt]
  · simp [MSAL.buildAuthParams]
  · simp [MSAL.buildAuthParams]
  · have hmem : MSAL.toLowerStr cfg.clientId ∈
        MSAL.normalizeScopes (cfg.clientId :: req.scopes) := by
      unfold MSAL.normalizeScopes
      rw [List.mem_dedup]
      exact List.mem_map_of_mem MSAL.toLowerStr (List.mem_cons_self _ _)
    simp only [MSAL.createUrlScopes, Bool.not_true, MSAL.ScopeSet.create,
      MSAL.ScopeSet.appendScopes, Bool.false_eq_true, if_false, if_true,
      List.mem_append]
    exact Or.inl hmem
  · simp [MSAL.buildAuthParams]
  · obtain ⟨tqs, tqa, tqr, tqc⟩ := tq
    by_cases hta : tqa = ""
    · subst hta
      simp [MSAL.getCachedRequest, MSAL.persistRequestState, List.lookup]
    · simp [MSAL.getCachedRequest, MSAL.persistRequestState, hta]

theorem createLoginUrl_params_and_state_roundtrip_witness :
    MSAL.reqAuthFix.scopes = ["read"] ∧
    (MSAL.createUrlAuthority MSAL.cfgFix (some MSAL.reqAuthFix)).resolveSucceeds
      = true ∧
    MSAL.getRedirectUri MSAL.cfgFix = .ok "https://app.example.com/redirect" ∧
    ("https://app.example.com/redirect" : String) ≠ "" ∧
    MSAL.reqAuthFix.prompt = "" ∧
    (MSAL.createUrl MSAL.cfgFix MSAL.sFix (some MSAL.reqAuthFix) true).2.2 =
      .ok (MSAL.buildAuthParams MSAL.cfgFix (some MSAL.reqAuthFix) true
        "https://app.example.com/redirect") ∧
    ("code_challenge_method", "S256") ∈ MSAL.buildAuthParams MSAL.cfgFix
      (some MSAL.reqAuthFix) true "https://app.example.com/redirect" ∧
    MSAL.toLowerStr MSAL.cfgFix.clientId ∈
      (MSAL.createUrlScopes MSAL.cfgFix (some MSAL.reqAuthFix) true).scopes ∧
    (MSAL.getCachedRequest
        (MSAL.persistRequestState MSAL.sFix
          (MSAL.requestStateOf MSAL.cfgFix (some MSAL.reqAuthFix)) MSAL.tqFix)
        (MSAL.requestStateOf MSAL.cfgFix (some MSAL.reqAuthFix))).2 =
      .ok MSAL.tqFix := by
  have h := createLoginUrl_params_and_state_roundtrip MSAL.cfgFix MSAL.sFix
    MSAL.sFix MSAL.reqAuthFix MSAL.tqFix "https://app.example.com/redirect"
    rfl (by decide) (by decide) (by decide) rfl
  exact ⟨rfl, by decide, by decide, by decide, rfl, h.1, h.2.1, h.2.2.2.1,
    h.2.2.2.2.2⟩

theorem getValidToken_proj (cfg : MSAL.SPAConfig) (s : MSAL.SPAState)
    (request : Option MSAL.TokenRenewParameters) :
    (MSAL.getValidToken cfg s request).1 =
      (MSAL.getValidTokenBody cfg s request).1 ∧
    (MSAL.getValidToken cfg s request).2.2 =
      (MSAL.getValidTokenBody cfg s request).2.2 := by
  rcases h : MSAL.getValidTokenBody cfg s request with ⟨ev, s1, r⟩
  cases r <;> simp [MSAL.getValidToken, h]

/-- Claim C1: when the cache lookup of `getValidToken` yields exactly one
matching entry, then — with refresh not forced and the entry's absolute
expiry beyond the current time plus the renewal offset — the call answers
with the response built directly from the cached entry and the event trace
shows no token-endpoint (transport) call; otherwise (refresh forced, or
expiry missing, or expiry within the offset) the call performs the
refresh-token exchange `renewToken` with the cached entry's refresh token
against the resolved authority's token endpoint and returns that exchange's
result. -/
theorem getValidToken_cache_policy
    (cfg : MSAL.SPAConfig) (s : MSAL.SPAState) (req : MSAL.TokenRenewParameters)
    (acct : MSAL.Account) (item : MSAL.AccessTokenCacheItem)
    (hacct : req.account = some acct)
    (hdisc : (MSAL.resolveAuthority cfg req.authority).discoveryComplete = true)
    (hfind : MSAL.getCachedTokens cfg.clientId s.accessTokens
        (MSAL.ScopeSet.create req.scopes cfg.clientId true)
        (MSAL.resolveAuthority cfg req.authority).canonicalAuthority
        req.resource acct.homeAccountIdentifier = .ok item) :
    ((MSAL.getValidToken cfg s (some req)).2.2 =
      if req.forceRefresh = false ∧ item.value.expiresOnSec ≠ 0 ∧
          cfg.nowSeconds + cfg.tokenRenewalOffsetSeconds <
            item.value.expiresOnSec
      then MSAL.cachedBranchResult cfg item (some acct)
      else (MSAL.renewToken cfg s { req with authority := item.key.authority }
        (MSAL.resolveAuthority cfg req.authority).tokenEndpoint
        item.value.refreshToken).2.2) ∧
    ((MSAL.getValidToken cfg s (some req)).1 =
      [MSAL.Event.tokenCacheQuery] ++
      (if req.forceRefresh = false ∧ item.value.expiresOnSec ≠ 0 ∧
          cfg.nowSeconds + cfg.tokenRenewalOffsetSeconds <
            item.value.expiresOnSec
       then []
       else (MSAL.renewToken cfg s { req with authority := item.key.authority }
        (MSAL.resolveAuthority cfg req.authority).tokenEndpoint
        item.value.refreshToken).1)) := by
  obtain ⟨hev, hr⟩ := getValidToken_proj cfg s (some req)
  rw [hev, hr]
  unfold MSAL.getValidTokenBody
  simp only [hacct, Option.isNone_some, Option.map_some', Option.getD_some,
    hdisc, hfind, Bool.false_eq_true, Bool.true_eq_false, and_false,
    false_and, if_false, eq_self_iff_true, if_true]
  constructor <;> split <;> simp

theorem getValidToken_cache_policy_witness :
    MSAL.reqRenewFix.account = some MSAL.acctFix ∧
    (MSAL.resolveAuthority MSAL.cfgFix MSAL.reqRenewFix.authority).discoveryComplete
      = true ∧
    MSAL.getCachedTokens MSAL.cfgFix.clientId MSAL.sCacheFix.accessTokens
      (MSAL.ScopeSet.create MSAL.reqRenewFix.scopes MSAL.cfgFix.clientId true)
      (MSAL.resolveAuthority MSAL.cfgFix MSAL.reqRenewFix.authority).canonicalAuthority
      MSAL.reqRenewFix.resource MSAL.acctFix.homeAccountIdentifier =
      .ok MSAL.itemFix ∧
    (MSAL.getValidToken MSAL.cfgFix MSAL.sCacheFix (some MSAL.reqRenewFix)).2.2 =
      MSAL.cachedBranchResult MSAL.cfgFix MSAL.itemFix (some MSAL.acctFix) ∧
    (MSAL.getValidToken MSAL.cfgFix MSAL.sCacheFix (some MSAL.reqRenewFix)).1 =
      [MSAL.Event.tokenCacheQuery] := by
  have h := getValidToken_cache_policy MSAL.cfgFix MSAL.sCacheFix
    MSAL.reqRenewFix MSAL.acctFix MSAL.itemFix rfl (by decide) (by decide)
  have hcond : MSAL.reqRenewFix.forceRefresh = false ∧
      MSAL.itemFix.value.expiresOnSec ≠ 0 ∧
      MSAL.cfgFix.nowSeconds + MSAL.cfgFix.tokenRenewalOffsetSeconds <
        MSAL.itemFix.value.expiresOnSec := by decide
  refine ⟨rfl, by decide, by decide, ?_, ?_⟩
  · rw [h.1, if_pos hcond]
  · rw [h.2, if_pos hcond]
    rfl
